import Mathlib

/-!
Shallow embedding of the payment-processing route layer:
the validation middleware (src/middleware/validatePayment.js) and the
route/webhook handlers (src/unnamed/part_000, an Express router).

Modelling conventions:
* JSON / JavaScript values are the inductive `Js` (numbers modelled as
  integers; the payment amounts in this code are integral minor units).
* External collaborators (Stripe, PayPal SDK calls, the `createOrder`
  collaborator) are parameters: a function from the arguments the code
  passes to an `Except String` result, `.error` standing for a thrown
  exception whose message is the string.
* An HTTP response is its status code plus its JSON (or text) body.
* Handlers return, next to the response, the list of arguments of each
  external call they made, so that call counts can be stated.
-/

/-- A JavaScript value as it appears in request bodies. `undefined` is
JavaScript's `undefined` (a destructured field that is absent). -/
inductive Js where
  | undefined : Js
  | null : Js
  | bool : Bool → Js
  | num : Int → Js
  | str : String → Js
  | arr : List Js → Js
  | obj : List (String × Js) → Js

namespace Js

/-- Look a field up in an object value (`v.f` on a `Js.obj`). -/
def getField (v : Js) (f : String) : Js :=
  match v with
  | .obj fields =>
    match fields.find? (fun p => p.1 == f) with
    | some p => p.2
    | none => .undefined
  | _ => .undefined

mutual
/-- JavaScript string conversion for values on which `.toString()` does
not throw (`null`/`undefined` map to "" here; they only reach this
function inside arrays, where `Array.prototype.toString` renders them
as the empty string). -/
def toStr : Js → String
  | .undefined => ""
  | .null => ""
  | .bool b => if b then "true" else "false"
  | .num n => toString n
  | .str s => s
  | .arr xs => listToStr xs
  | .obj _ => "[object Object]"

/-- Array toString: elements joined with commas. -/
def listToStr : List Js → String
  | [] => ""
  | [x] => toStr x
  | x :: xs => toStr x ++ "," ++ listToStr xs
end

/-- Method call `v.toString()`: throws a TypeError on `undefined` and `null`
(`.error` carries the TypeError message), returns the string form
otherwise. -/
def toStringJs : Js → Except String String
  | .undefined => .error "Cannot read properties of undefined (reading 'toString')"
  | .null => .error "Cannot read properties of null (reading 'toString')"
  | v => .ok (toStr v)

/-- Numeric parse of a string as JavaScript's ToNumber does for the
integral strings this code can meet: empty/whitespace-free digit
strings with an optional sign; anything else is NaN (`none`). -/
def strToNumber (s : String) : Option Int :=
  if s == "" then some 0
  else if (s.front == '-') && !((s.drop 1) == "") && (s.drop 1).all Char.isDigit then
    some (-((((s.drop 1)).toNat?).getD 0 : Int))
  else if s.all Char.isDigit then some ((s.toNat?).getD 0 : Int)
  else none

/-- JavaScript ToNumber coercion used by `<=` / `>` comparisons;
`none` is NaN (every comparison with NaN is false). -/
def toNumber : Js → Option Int
  | .undefined => none
  | .null => some 0
  | .bool b => some (if b then 1 else 0)
  | .num n => some n
  | .str s => strToNumber s
  | .arr xs => strToNumber (listToStr xs)
  | .obj _ => none

end Js

/-- A parsed request body: the fields this router ever destructures.
A field the client did not send is `Js.undefined`. -/
structure RequestBody where
  method : Js := .undefined
  amount : Js := .undefined
  currency : Js := .undefined
  paymentMethodId : Js := .undefined
  paymentData : Js := .undefined
  orderId : Js := .undefined

/-- An inbound request after `protectRoute`: the body, the transport
flag `req.secure`, and the authenticated caller's id `req.user.id`. -/
structure Request where
  body : RequestBody
  secure : Bool
  userId : String

/-- Process environment: `NODE_ENV` and `FRONTEND_URL`. -/
structure Env where
  nodeEnv : String
  frontendUrl : String

/-- An HTTP response: status code and body (JSON object, or a plain
text body for `res.send`). `res.json` without `res.status` is 200. -/
structure HttpResponse where
  status : Nat
  body : Js

/-! ## Validation middleware (src/middleware/validatePayment.js) -/

/-- Validator `isNumeric`: accepts numbers and integral numeric strings. -/
def isNumericJs : Js → Bool
  | .num _ => true
  | .str s =>
    !(s == "") && (s.all Char.isDigit ||
      ((s.front == '-') && !((s.drop 1) == "") && (s.drop 1).all Char.isDigit))
  | _ => false

/-- Validator chain `isString().isLength(min 3, max 3)`. -/
def isCurrencyCode : Js → Bool
  | .str s => s.length == 3
  | _ => false

/-- Validator chain `isString().notEmpty()`. -/
def isNonEmptyString : Js → Bool
  | .str s => !(s == "")
  | _ => false

/-- Validator `isObject()`. -/
def isObjectJs : Js → Bool
  | .obj _ => true
  | _ => false

/-- One `body('field')...withMessage(msg)` chain: a predicate on the
request body plus the message reported when it fails. -/
structure FieldRule where
  check : RequestBody → Bool
  msg : String

/-- Rule set `stripePaymentRules`. -/
def stripePaymentRules : List FieldRule :=
  [ ⟨fun b => isNumericJs b.amount, "Amount must be a number"⟩,
    ⟨fun b => isCurrencyCode b.currency, "Invalid currency code"⟩,
    ⟨fun b => isNonEmptyString b.paymentMethodId, "Payment method ID is required"⟩ ]

/-- Rule set `paypalPaymentRules`. -/
def paypalPaymentRules : List FieldRule :=
  [ ⟨fun b => isNumericJs b.amount, "Amount must be a number"⟩,
    ⟨fun b => isCurrencyCode b.currency, "Invalid currency code"⟩ ]

/-- Rule set `googlePayPaymentRules`. -/
def googlePayPaymentRules : List FieldRule :=
  [ ⟨fun b => isNumericJs b.amount, "Amount must be a number"⟩,
    ⟨fun b => isCurrencyCode b.currency, "Invalid currency code"⟩,
    ⟨fun b => isObjectJs b.paymentData, "Invalid payment data"⟩,
    ⟨fun b => isNonEmptyString (b.paymentData.getField "token"), "Payment token is required"⟩ ]

/-- The `switch (method)` that selects a rule set; `none` is the
`default:` branch (unknown method). -/
def selectRules (method : Js) : Option (List FieldRule) :=
  match method with
  | .str s =>
    if s = "card" then some stripePaymentRules
    else if s = "paypal" then some paypalPaymentRules
    else if s = "google_pay" then some googlePayPaymentRules
    else none
  | _ => none

/-- Run every rule and collect the messages of the failing ones
(`validationResult(req)` after all rules ran). -/
def validationErrors (rules : List FieldRule) (b : RequestBody) : List String :=
  rules.filterMap (fun r => if r.check b then none else some r.msg)

/-- Check `amount <= 0 || amount > 999999` under JavaScript coercion
(false when the coercion is NaN). -/
def amountOutOfRange (amount : Js) : Bool :=
  match amount.toNumber with
  | some a => a ≤ 0 || a > 999999
  | none => false

/-- What a middleware does: answer the request itself, or call
`next()` passing control to the route handler. -/
inductive MiddlewareResult where
  | respond : HttpResponse → MiddlewareResult
  | next : MiddlewareResult

/-- Response of the `default:` branch: unknown payment method. -/
def invalidMethodResponse : HttpResponse :=
  ⟨400, .obj [("error", .obj [("message", .str "Invalid payment method")])]⟩

/-- Response when field-level rules failed. -/
def validationErrorResponse (errs : List String) : HttpResponse :=
  ⟨400, .obj [("error", .obj [("message", .str "Validation error"),
                              ("details", .arr (errs.map Js.str))])]⟩

/-- Response of the amount-bounds check. -/
def invalidAmountResponse : HttpResponse :=
  ⟨400, .obj [("error", .obj [("message", .str "Invalid amount"),
                              ("details", .str "Amount must be between 0 and 999,999")])]⟩

/-- Response of the transport-security check. -/
def httpsRequiredResponse : HttpResponse :=
  ⟨403, .obj [("error", .obj [("message", .str "Payment must be processed over HTTPS")])]⟩

/-- Middleware `validatePayment`: select rules by `method`
(unknown → 400), run the field rules and report all failures (400),
then the amount-bounds check (400), then the production/HTTPS check
(403), else `next()`. -/
def validatePayment (env : Env) (req : Request) : MiddlewareResult :=
  match selectRules req.body.method with
  | none => .respond invalidMethodResponse
  | some rules =>
    let errs := validationErrors rules req.body
    if !errs.isEmpty then .respond (validationErrorResponse errs)
    else if amountOutOfRange req.body.amount then .respond invalidAmountResponse
    else if !req.secure && env.nodeEnv == "production" then .respond httpsRequiredResponse
    else .next

/-! ## Route handlers (src/unnamed/part_000) -/

/-- Argument record of a `createOrder` call (the order-creation
collaborator). `paymentId` is a `Js` because the PayPal capture path
forwards whatever `orderId` the body supplied. -/
structure OrderArgs where
  userId : Js
  paymentId : Js
  paymentMethod : String
  status : String

/-- Arguments of `stripe.paymentIntents.create` as built by the
create-payment-intent handler. -/
structure StripeIntentArgs where
  amount : Js
  currency : Js
  payment_method : Js
  confirm : Bool
  return_url : String

/-- The fields of a Stripe payment intent this router reads. -/
structure PaymentIntent where
  client_secret : String
  id : String

/-- A Stripe SDK error: `error.message` and `error.code` (the code
can be absent, hence `Js`). -/
structure StripeError where
  message : String
  code : Js

/-- Error body `{ error: { message, code } }` of the card handler. -/
def stripeErrorResponse (e : StripeError) : HttpResponse :=
  ⟨500, .obj [("error", .obj [("message", .str e.message), ("code", e.code)])]⟩

/-- Handler of `POST /create-payment-intent` (after `protectRoute`
and `validatePayment`): one `stripe.paymentIntents.create` call; on
success `{clientSecret, paymentIntentId}`, on a thrown vendor error a
500 carrying the vendor message and code. Returns the response and the
list of vendor calls made. -/
def createPaymentIntentHandler (env : Env) (req : Request)
    (paymentIntentsCreate : StripeIntentArgs → Except StripeError PaymentIntent) :
    HttpResponse × List StripeIntentArgs :=
  let args : StripeIntentArgs :=
    ⟨req.body.amount, req.body.currency, req.body.paymentMethodId, true,
      env.frontendUrl ++ "/payment/confirm"⟩
  match paymentIntentsCreate args with
  | .ok paymentIntent =>
    (⟨200, .obj [("clientSecret", .str paymentIntent.client_secret),
                 ("paymentIntentId", .str paymentIntent.id)]⟩, [args])
  | .error e => (stripeErrorResponse e, [args])

/-- A purchase unit of a PayPal create-order request: the
`currency_code` and the stringified `value`. -/
structure PurchaseUnit where
  currency_code : Js
  value : String

/-- Arguments of the PayPal `OrdersCreateRequest` the handler builds:
the `prefer` header, the intent, and the purchase units. -/
structure PaypalCreateArgs where
  preferHeader : String
  intent : String
  purchase_units : List PurchaseUnit

/-- The field of a PayPal create-order result this router reads. -/
structure PaypalOrder where
  id : String

/-- Error body `{ error: { message, details } }` used by the PayPal
and Google Pay handlers. -/
def detailErrorResponse (message details : String) : HttpResponse :=
  ⟨500, .obj [("error", .obj [("message", .str message), ("details", .str details)])]⟩

/-- Handler of `POST /create-paypal-order`: stringify the amount
(`amount.toString()` throws on an absent amount), build an order
request with intent CAPTURE, one purchase unit and
`prefer("return=representation")`, execute it; on success respond
`{orderId}`, on any thrown error a 500 with the fixed message and the
error's detail string. -/
def createPaypalOrderHandler (req : Request)
    (paypalExecuteCreate : PaypalCreateArgs → Except String PaypalOrder) :
    HttpResponse × List PaypalCreateArgs :=
  match req.body.amount.toStringJs with
  | .error e => (detailErrorResponse "Failed to create PayPal order" e, [])
  | .ok value =>
    let args : PaypalCreateArgs :=
      ⟨"return=representation", "CAPTURE", [⟨req.body.currency, value⟩]⟩
    match paypalExecuteCreate args with
    | .ok order => (⟨200, .obj [("orderId", .str order.id)]⟩, [args])
    | .error e => (detailErrorResponse "Failed to create PayPal order" e, [args])

/-- The fields of a PayPal capture result this router reads
(`capture.result.status`, `capture.result.id`). -/
structure CaptureResult where
  status : String
  id : String

/-- Outcome of the capture handler: the response, the orderIds sent to
the vendor capture call, and the `createOrder` calls made. -/
structure CaptureOutcome where
  response : HttpResponse
  vendorCaptures : List Js
  orderCalls : List OrderArgs

/-- Handler of `POST /capture-paypal-payment` (mounted with
`protectRoute` only — no `validatePayment`): issue the vendor capture
for `req.body.orderId`; if the result status is exactly COMPLETED,
call `createOrder({userId: req.user.id, paymentId: orderId,
paymentMethod: 'paypal', status: 'confirmed'})` and respond
`{success: true, captureId}`; any other status throws
"Payment not completed"; every thrown error becomes a 500 with the
fixed message and the error detail. -/
def capturePaypalPaymentHandler (req : Request)
    (paypalExecuteCapture : Js → Except String CaptureResult)
    (createOrder : OrderArgs → Except String Unit) : CaptureOutcome :=
  let orderId := req.body.orderId
  match paypalExecuteCapture orderId with
  | .error e =>
    ⟨detailErrorResponse "Failed to capture PayPal payment" e, [orderId], []⟩
  | .ok capture =>
    if capture.status == "COMPLETED" then
      let args : OrderArgs := ⟨.str req.userId, orderId, "paypal", "confirmed"⟩
      match createOrder args with
      | .ok _ =>
        ⟨⟨200, .obj [("success", .bool true), ("captureId", .str capture.id)]⟩,
          [orderId], [args]⟩
      | .error e =>
        ⟨detailErrorResponse "Failed to capture PayPal payment" e, [orderId], [args]⟩
    else
      ⟨detailErrorResponse "Failed to capture PayPal payment" "Payment not completed",
        [orderId], []⟩

/-- Arguments of `stripe.paymentMethods.create` in the Google Pay
handler: `{type: 'card', card: {token: paymentData.token}}`. -/
structure StripeMethodArgs where
  type : String
  token : Js

/-- The field of a created Stripe payment method this router reads. -/
structure StripeMethod where
  id : String

/-- Handler of `POST /create-google-pay-payment`: create a card
payment method from `paymentData.token`, then create and confirm a
payment intent with it; two sequential vendor calls, no compensation;
any thrown error becomes a 500 with the fixed message and detail.
Returns the response, the method-creation calls and the
intent-creation calls. -/
def createGooglePayHandler (env : Env) (req : Request)
    (paymentMethodsCreate : StripeMethodArgs → Except StripeError StripeMethod)
    (paymentIntentsCreate : StripeIntentArgs → Except StripeError PaymentIntent) :
    HttpResponse × List StripeMethodArgs × List StripeIntentArgs :=
  let margs : StripeMethodArgs := ⟨"card", req.body.paymentData.getField "token"⟩
  match paymentMethodsCreate margs with
  | .error e =>
    (detailErrorResponse "Failed to process Google Pay payment" e.message, [margs], [])
  | .ok paymentMethod =>
    let iargs : StripeIntentArgs :=
      ⟨req.body.amount, req.body.currency, .str paymentMethod.id, true,
        env.frontendUrl ++ "/payment/confirm"⟩
    match paymentIntentsCreate iargs with
    | .ok paymentIntent =>
      (⟨200, .obj [("success", .bool true), ("paymentIntentId", .str paymentIntent.id)]⟩,
        [margs], [iargs])
    | .error e =>
      (detailErrorResponse "Failed to process Google Pay payment" e.message, [margs], [iargs])

/-! ## Webhook handler (src/unnamed/part_000) -/

/-- The fields of the payment-intent object inside a webhook event
this router reads: `id`, `metadata.userId`, `last_payment_error`. -/
structure EventPaymentIntent where
  id : String
  metadataUserId : Js
  last_payment_error : Js

/-- A verified Stripe webhook event: its `type` and `data.object`. -/
structure StripeEvent where
  type : String
  dataObject : EventPaymentIntent

/-- The `createOrder` argument built by `handleSuccessfulPayment`. -/
def successOrderArgs (paymentIntent : EventPaymentIntent) : OrderArgs :=
  ⟨paymentIntent.metadataUserId, .str paymentIntent.id, "card", "confirmed"⟩

/-- Function `handleSuccessfulPayment`: one `createOrder` call; a collaborator
error is logged and rethrown. Returns the calls made and the rethrown
error, if any. -/
def handleSuccessfulPayment (createOrder : OrderArgs → Except String Unit)
    (paymentIntent : EventPaymentIntent) : List OrderArgs × Option String :=
  let args := successOrderArgs paymentIntent
  match createOrder args with
  | .ok _ => ([args], none)
  | .error e => ([args], some e)

/-- Function `handleFailedPayment`: logs the failure detail only; no
`createOrder` call and nothing thrown. -/
def handleFailedPayment (_paymentIntent : EventPaymentIntent) :
    List OrderArgs × Option String :=
  ([], none)

/-- Outcome of one webhook delivery: the response and the
`createOrder` calls made. -/
structure WebhookOutcome where
  response : HttpResponse
  orderCalls : List OrderArgs

/-- Route `POST /webhook`: `stripe.webhooks.constructEvent` is external, so
its outcome is the parameter `constructEvent` (`.error` = signature
verification threw). Verification failure → 400 `Webhook Error: <msg>`
and nothing else; otherwise dispatch on the event type, a thrown
dispatch error → 500 generic body, else `{received: true}`. -/
def webhookHandler (constructEvent : Except String StripeEvent)
    (createOrder : OrderArgs → Except String Unit) : WebhookOutcome :=
  match constructEvent with
  | .error err => ⟨⟨400, .str ("Webhook Error: " ++ err)⟩, []⟩
  | .ok event =>
    let dispatched :=
      if event.type == "payment_intent.succeeded" then
        handleSuccessfulPayment createOrder event.dataObject
      else if event.type == "payment_intent.payment_failed" then
        handleFailedPayment event.dataObject
      else ([], none)
    match dispatched.2 with
    | some _ => ⟨⟨500, .obj [("error", .str "Webhook processing failed")]⟩, dispatched.1⟩
    | none => ⟨⟨200, .obj [("received", .bool true)]⟩, dispatched.1⟩

/-- Two deliveries of the same webhook input: the handler retains no
state, so the calls of the two runs concatenate. -/
def deliverTwice (constructEvent : Except String StripeEvent)
    (createOrder : OrderArgs → Except String Unit) : List OrderArgs :=
  (webhookHandler constructEvent createOrder).orderCalls ++
    (webhookHandler constructEvent createOrder).orderCalls

/-! ## Route pipelines: how the router mounts middleware and handlers -/

/-- A route mounted as `router.post(path, protectRoute, validatePayment,
handler)`: the middleware either responds (the handler and its vendor
calls never run) or passes control. -/
def runValidated {α : Type} (env : Env) (req : Request)
    (handler : Unit → HttpResponse × α) (noCalls : α) : HttpResponse × α :=
  match validatePayment env req with
  | .respond r => (r, noCalls)
  | .next => handler ()

/-- Route `POST /create-payment-intent` with its mounted middleware. -/
def createPaymentIntentRoute (env : Env) (req : Request)
    (paymentIntentsCreate : StripeIntentArgs → Except StripeError PaymentIntent) :
    HttpResponse × List StripeIntentArgs :=
  runValidated env req (fun _ => createPaymentIntentHandler env req paymentIntentsCreate) []

/-- Route `POST /create-paypal-order` with its mounted middleware. -/
def createPaypalOrderRoute (env : Env) (req : Request)
    (paypalExecuteCreate : PaypalCreateArgs → Except String PaypalOrder) :
    HttpResponse × List PaypalCreateArgs :=
  runValidated env req (fun _ => createPaypalOrderHandler req paypalExecuteCreate) []

/-- Route `POST /create-google-pay-payment` with its mounted middleware. -/
def createGooglePayRoute (env : Env) (req : Request)
    (paymentMethodsCreate : StripeMethodArgs → Except StripeError StripeMethod)
    (paymentIntentsCreate : StripeIntentArgs → Except StripeError PaymentIntent) :
    HttpResponse × List StripeMethodArgs × List StripeIntentArgs :=
  runValidated env req
    (fun _ => createGooglePayHandler env req paymentMethodsCreate paymentIntentsCreate)
    ([], [])

/-- Route `POST /capture-paypal-payment` is mounted with `protectRoute`
only: `validatePayment` is not in its chain, so the handler body runs
on every authenticated request. -/
def capturePaypalPaymentRoute (req : Request)
    (paypalExecuteCapture : Js → Except String CaptureResult)
    (createOrder : OrderArgs → Except String Unit) : CaptureOutcome :=
  capturePaypalPaymentHandler req paypalExecuteCapture createOrder

/-! ## Theorems -/

/-- Constructor injectivity for `Js.str`, contrapositive form. -/
theorem Js.str_ne_of_ne {s t : String} (h : s ≠ t) : Js.str s ≠ Js.str t :=
  fun he => (Js.noConfusion he (fun hst => h hst) : False)

/-- Unknown methods select no rule set. -/
theorem selectRules_eq_none {m : Js} (h1 : m ≠ .str "card") (h2 : m ≠ .str "paypal")
    (h3 : m ≠ .str "google_pay") : selectRules m = none := by
  cases m with
  | str s =>
    have hs1 : s ≠ "card" := fun h => h1 (by rw [h])
    have hs2 : s ≠ "paypal" := fun h => h2 (by rw [h])
    have hs3 : s ≠ "google_pay" := fun h => h3 (by rw [h])
    simp [selectRules, hs1, hs2, hs3]
  | undefined => rfl
  | null => rfl
  | bool b => rfl
  | num n => rfl
  | arr xs => rfl
  | obj fs => rfl

/-- A development-mode environment. -/
def cDevEnv : Env := ⟨"development", "https://shop.example"⟩

/-- A production-mode environment. -/
def cProdEnv : Env := ⟨"production", "https://shop.example"⟩

/-- C1: a webhook request whose signature verification throws gets a
400 response carrying the error message, dispatch is never reached,
and the order-creation collaborator is called zero times. -/
theorem webhook_invalid_signature_no_dispatch (err : String)
    (createOrder : OrderArgs → Except String Unit) :
    webhookHandler (.error err) createOrder =
      ⟨⟨400, .str ("Webhook Error: " ++ err)⟩, []⟩ := rfl

/-- C10: the capture route carries no validation middleware, so for
every request body the vendor capture call happens with exactly the
body's `orderId` (absent, empty, or non-string alike), and no
validation response (400 or 403) ever occurs: the handler only ever
answers 200 or 500. -/
theorem capture_route_skips_validation (req : Request)
    (paypalExecuteCapture : Js → Except String CaptureResult)
    (createOrder : OrderArgs → Except String Unit) :
    (capturePaypalPaymentRoute req paypalExecuteCapture createOrder).vendorCaptures =
      [req.body.orderId] ∧
    (capturePaypalPaymentRoute req paypalExecuteCapture createOrder).response.status ≠ 400 ∧
    (capturePaypalPaymentRoute req paypalExecuteCapture createOrder).response.status ≠ 403 ∧
    ((capturePaypalPaymentRoute req paypalExecuteCapture createOrder).response.status = 200 ∨
      (capturePaypalPaymentRoute req paypalExecuteCapture createOrder).response.status = 500) := by
  simp only [capturePaypalPaymentRoute, capturePaypalPaymentHandler]
  split
  · simp [detailErrorResponse]
  · split
    · split
      · simp
      · simp [detailErrorResponse]
    · simp [detailErrorResponse]

/-- Request whose declared payment method is not one of the three
known ones. -/
def cUnknownMethodReq : Request :=
  { body := { method := .str "venmo", amount := .num 100, currency := .str "USD" },
    secure := true, userId := "user_4" }

/-- Stripe intent creation stub that succeeds. -/
def cStripeCreateOk : StripeIntentArgs → Except StripeError PaymentIntent :=
  fun _ => .ok ⟨"cs_test", "pi_9"⟩

/-- PayPal order creation stub that succeeds. -/
def cPaypalCreateOk : PaypalCreateArgs → Except String PaypalOrder :=
  fun _ => .ok ⟨"PAY-9"⟩

/-- Stripe payment-method creation stub that succeeds. -/
def cMethodsCreateOk : StripeMethodArgs → Except StripeError StripeMethod :=
  fun _ => .ok ⟨"pm_9"⟩

/-- C4: a request whose `method` is none of card/paypal/google_pay is
answered 400 "Invalid payment method" by the middleware, and on every
route mounted behind the middleware the handler never runs: all
vendor call lists stay empty. -/
theorem validate_unknown_method_rejects (env : Env) (req : Request)
    (h1 : req.body.method ≠ .str "card") (h2 : req.body.method ≠ .str "paypal")
    (h3 : req.body.method ≠ .str "google_pay")
    (stripeCreate : StripeIntentArgs → Except StripeError PaymentIntent)
    (paypalCreate : PaypalCreateArgs → Except String PaypalOrder)
    (methodsCreate : StripeMethodArgs → Except StripeError StripeMethod) :
    validatePayment env req = .respond invalidMethodResponse ∧
    createPaymentIntentRoute env req stripeCreate = (invalidMethodResponse, []) ∧
    createPaypalOrderRoute env req paypalCreate = (invalidMethodResponse, []) ∧
    createGooglePayRoute env req methodsCreate stripeCreate =
      (invalidMethodResponse, [], []) := by
  have hsel := selectRules_eq_none h1 h2 h3
  have hv : validatePayment env req = .respond invalidMethodResponse := by
    simp [validatePayment, hsel]
  refine ⟨hv, ?_, ?_, ?_⟩ <;>
    simp [createPaymentIntentRoute, createPaypalOrderRoute, createGooglePayRoute,
      runValidated, hv]

/-- Closed instance of C4 at the concrete unknown-method request. -/
theorem validate_unknown_method_rejects_witness :
    validatePayment cDevEnv cUnknownMethodReq = .respond invalidMethodResponse ∧
    createPaymentIntentRoute cDevEnv cUnknownMethodReq cStripeCreateOk =
      (invalidMethodResponse, []) ∧
    createPaypalOrderRoute cDevEnv cUnknownMethodReq cPaypalCreateOk =
      (invalidMethodResponse, []) ∧
    createGooglePayRoute cDevEnv cUnknownMethodReq cMethodsCreateOk cStripeCreateOk =
      (invalidMethodResponse, [], []) :=
  validate_unknown_method_rejects cDevEnv cUnknownMethodReq
    (Js.str_ne_of_ne (by decide)) (Js.str_ne_of_ne (by decide))
    (Js.str_ne_of_ne (by decide)) cStripeCreateOk cPaypalCreateOk cMethodsCreateOk

/-- C5: whenever the amount coerces to a number outside (0, 999999],
the middleware answers 400 (through whichever of its 400 branches
fires first) and never passes control to the route handler. -/
theorem validate_amount_bounds_reject (env : Env) (req : Request) (a : Int)
    (ha : req.body.amount.toNumber = some a) (hrange : a ≤ 0 ∨ a > 999999) :
    validatePayment env req ≠ .next ∧
    ∃ b, validatePayment env req = .respond ⟨400, b⟩ := by
  have hout : amountOutOfRange req.body.amount = true := by
    simp [amountOutOfRange, ha]
    exact hrange
  constructor
  · simp only [validatePayment]
    cases hsel : selectRules req.body.method with
    | none => simp
    | some rules =>
      simp only []
      split
      · simp
      · simp [hout]
  · simp only [validatePayment]
    cases hsel : selectRules req.body.method with
    | none => exact ⟨_, rfl⟩
    | some rules =>
      simp only []
      split
      · exact ⟨_, rfl⟩
      · exact ⟨_, rfl⟩

/-- Request with a zero amount and otherwise valid PayPal fields. -/
def cZeroAmountReq : Request :=
  { body := { method := .str "paypal", amount := .num 0, currency := .str "USD" },
    secure := true, userId := "user_6" }

/-- Closed instance of C5 at amount 0. -/
theorem validate_amount_bounds_reject_witness :
    validatePayment cDevEnv cZeroAmountReq ≠ .next ∧
    ∃ b, validatePayment cDevEnv cZeroAmountReq = .respond ⟨400, b⟩ :=
  validate_amount_bounds_reject cDevEnv cZeroAmountReq 0 rfl (Or.inl (by decide))

/-- Production-mode insecure request carrying a field-level violation
(a boolean amount fails `isNumeric`). -/
def cInsecureBadFieldReq : Request :=
  { body := { method := .str "card", amount := .bool true, currency := .str "USD",
              paymentMethodId := .str "pm_1" },
    secure := false, userId := "user_2" }

/-- C3 counterexample: in production over an insecure connection, a
request with a field-level violation is answered by the field check
(400 "Validation error"), not by the 403 transport check — the field
results are used first. -/
theorem validate_prod_insecure_field_first_counterexample :
    cProdEnv.nodeEnv = "production" ∧ cInsecureBadFieldReq.secure = false ∧
    validatePayment cProdEnv cInsecureBadFieldReq =
      .respond (validationErrorResponse ["Amount must be a number"]) ∧
    (validationErrorResponse ["Amount must be a number"]).status = 400 ∧
    (validationErrorResponse ["Amount must be a number"]).status ≠ 403 := by
  refine ⟨rfl, rfl, ?_, rfl, by decide⟩
  rfl

/-- C3 (amended): in production over an insecure connection the
middleware never passes control onward, and the 403 transport answer
is produced for exactly the requests that survive the earlier checks:
a known method, no field-level violation, amount in range. -/
theorem validate_prod_insecure_rejects (env : Env) (req : Request)
    (hprod : env.nodeEnv = "production") (hsec : req.secure = false) :
    validatePayment env req ≠ .next ∧
    (∀ rules, selectRules req.body.method = some rules →
      validationErrors rules req.body = [] →
      amountOutOfRange req.body.amount = false →
      validatePayment env req = .respond httpsRequiredResponse) := by
  have hcond : (!req.secure && env.nodeEnv == "production") = true := by
    rw [hsec, hprod]; rfl
  constructor
  · simp only [validatePayment]
    cases hsel : selectRules req.body.method with
    | none => simp
    | some rules =>
      simp only []
      split
      · simp
      · split
        · simp
        · simp
  · intro rules hsel herr hamt
    simp [validatePayment, hsel, herr, hamt, hcond]

/-- Production-mode insecure request that passes every field check
and the amount bounds. -/
def cValidInsecureReq : Request :=
  { body := { method := .str "card", amount := .num 500, currency := .str "USD",
              paymentMethodId := .str "pm_2" },
    secure := false, userId := "user_5" }

/-- Closed instance of the amended C3 at a clean insecure request. -/
theorem validate_prod_insecure_rejects_witness :
    validatePayment cProdEnv cValidInsecureReq ≠ .next ∧
    validatePayment cProdEnv cValidInsecureReq = .respond httpsRequiredResponse := by
  have h := validate_prod_insecure_rejects cProdEnv cValidInsecureReq rfl rfl
  exact ⟨h.1, h.2 stripePaymentRules rfl rfl rfl⟩

/-- Order-creation collaborator argument record built by the PayPal
capture handler. -/
def captureOrderArgsOf (req : Request) : OrderArgs :=
  ⟨.str req.userId, req.body.orderId, "paypal", "confirmed"⟩

/-- C2: when the vendor capture result has status COMPLETED the
collaborator is called exactly once with
{userId: caller, paymentId: orderId, paymentMethod: paypal,
status: confirmed} and (the collaborator succeeding) the response is
`{success: true, captureId}`; for any other status the collaborator
is never called and the response is a 500. -/
theorem capture_status_dispatch (req : Request)
    (paypalExecuteCapture : Js → Except String CaptureResult)
    (createOrder : OrderArgs → Except String Unit) (capture : CaptureResult)
    (hexec : paypalExecuteCapture req.body.orderId = .ok capture) :
    (capture.status = "COMPLETED" →
      (capturePaypalPaymentRoute req paypalExecuteCapture createOrder).orderCalls =
        [captureOrderArgsOf req] ∧
      (createOrder (captureOrderArgsOf req) = .ok () →
        (capturePaypalPaymentRoute req paypalExecuteCapture createOrder).response =
          ⟨200, .obj [("success", .bool true), ("captureId", .str capture.id)]⟩)) ∧
    (capture.status ≠ "COMPLETED" →
      (capturePaypalPaymentRoute req paypalExecuteCapture createOrder).orderCalls = [] ∧
      (capturePaypalPaymentRoute req paypalExecuteCapture createOrder).response.status =
        500) := by
  simp only [capturePaypalPaymentRoute, capturePaypalPaymentHandler, hexec]
  constructor
  · intro hst
    have hb : (capture.status == "COMPLETED") = true := by rw [hst]; rfl
    simp only [hb, if_true]
    constructor
    · cases hco : createOrder ⟨.str req.userId, req.body.orderId, "paypal", "confirmed"⟩ with
      | ok u => simp [hco, captureOrderArgsOf]
      | error e => simp [hco, captureOrderArgsOf]
    · intro hco
      simp [captureOrderArgsOf] at hco
      simp [hco]
  · intro hst
    have hb : (capture.status == "COMPLETED") = false := by
      cases h : capture.status == "COMPLETED" with
      | false => rfl
      | true => exact absurd (by simpa using h) hst
    simp [hb, detailErrorResponse]

/-- Request carrying only an `orderId`, as the capture route needs. -/
def cCaptureReq : Request :=
  { body := { orderId := .str "ord_1" }, secure := true, userId := "user_1" }

/-- Vendor capture stub answering COMPLETED. -/
def cExecCaptureCompleted : Js → Except String CaptureResult :=
  fun _ => .ok ⟨"COMPLETED", "cap_1"⟩

/-- Order-creation collaborator stub that succeeds. -/
def cCreateOrderOk : OrderArgs → Except String Unit := fun _ => .ok ()

/-- Closed instance of C2 at a COMPLETED capture. -/
theorem capture_status_dispatch_witness :
    (capturePaypalPaymentRoute cCaptureReq cExecCaptureCompleted cCreateOrderOk).orderCalls =
      [captureOrderArgsOf cCaptureReq] ∧
    (capturePaypalPaymentRoute cCaptureReq cExecCaptureCompleted cCreateOrderOk).response =
      ⟨200, .obj [("success", .bool true), ("captureId", .str "cap_1")]⟩ := by
  have h := capture_status_dispatch cCaptureReq cExecCaptureCompleted cCreateOrderOk
    ⟨"COMPLETED", "cap_1"⟩ rfl
  exact ⟨(h.1 rfl).1, (h.1 rfl).2 rfl⟩

/-- C6: for a verified event, type `payment_intent.succeeded` makes
exactly one `createOrder` call with {userId: metadata userId,
paymentId: intent id, paymentMethod: card, status: confirmed} — the
response is `{received: true}` when the collaborator returns and the
generic 500 when it throws; type `payment_intent.payment_failed` and
every other type make no call and answer `{received: true}`. -/
theorem webhook_event_dispatch (event : StripeEvent)
    (createOrder : OrderArgs → Except String Unit) :
    (event.type = "payment_intent.succeeded" →
      (webhookHandler (.ok event) createOrder).orderCalls =
        [successOrderArgs event.dataObject] ∧
      (createOrder (successOrderArgs event.dataObject) = .ok () →
        (webhookHandler (.ok event) createOrder).response =
          ⟨200, .obj [("received", .bool true)]⟩) ∧
      (∀ e, createOrder (successOrderArgs event.dataObject) = .error e →
        (webhookHandler (.ok event) createOrder).response =
          ⟨500, .obj [("error", .str "Webhook processing failed")]⟩)) ∧
    (event.type = "payment_intent.payment_failed" →
      webhookHandler (.ok event) createOrder =
        ⟨⟨200, .obj [("received", .bool true)]⟩, []⟩) ∧
    (event.type ≠ "payment_intent.succeeded" →
      event.type ≠ "payment_intent.payment_failed" →
      webhookHandler (.ok event) createOrder =
        ⟨⟨200, .obj [("received", .bool true)]⟩, []⟩) := by
  refine ⟨?_, ?_, ?_⟩
  · intro hst
    have hb : (event.type == "payment_intent.succeeded") = true := by rw [hst]; rfl
    refine ⟨?_, ?_, ?_⟩
    · cases hco : createOrder (successOrderArgs event.dataObject) with
      | ok u => simp [webhookHandler, hb, handleSuccessfulPayment, hco]
      | error e => simp [webhookHandler, hb, handleSuccessfulPayment, hco]
    · intro hco
      simp [webhookHandler, hb, handleSuccessfulPayment, hco]
    · intro e hco
      simp [webhookHandler, hb, handleSuccessfulPayment, hco]
  · intro hst
    have hb1 : (event.type == "payment_intent.succeeded") = false := by rw [hst]; rfl
    have hb2 : (event.type == "payment_intent.payment_failed") = true := by rw [hst]; rfl
    simp [webhookHandler, hb1, hb2, handleFailedPayment]
  · intro h1 h2
    have hb1 : (event.type == "payment_intent.succeeded") = false := by
      cases h : event.type == "payment_intent.succeeded" with
      | false => rfl
      | true => exact absurd (by simpa using h) h1
    have hb2 : (event.type == "payment_intent.payment_failed") = false := by
      cases h : event.type == "payment_intent.payment_failed" with
      | false => rfl
      | true => exact absurd (by simpa using h) h2
    simp [webhookHandler, hb1, hb2]

/-- Verified successful-payment event used as a concrete input. -/
def cSucceededEvent : StripeEvent :=
  ⟨"payment_intent.succeeded", ⟨"pi_1", .str "user_3", .null⟩⟩

/-- Closed instance of C6 at the succeeded event with a returning
collaborator. -/
theorem webhook_event_dispatch_witness :
    (webhookHandler (.ok cSucceededEvent) cCreateOrderOk).orderCalls =
      [successOrderArgs cSucceededEvent.dataObject] ∧
    (webhookHandler (.ok cSucceededEvent) cCreateOrderOk).response =
      ⟨200, .obj [("received", .bool true)]⟩ := by
  have h := webhook_event_dispatch cSucceededEvent cCreateOrderOk
  exact ⟨(h.1 rfl).1, (h.1 rfl).2.1 rfl⟩

/-- C9: the webhook handler retains no state, so delivering the same
verified `payment_intent.succeeded` event twice makes one
order-creation call per delivery — two calls total, with identical
argument records. -/
theorem webhook_replay_no_dedup (event : StripeEvent)
    (createOrder : OrderArgs → Except String Unit)
    (htype : event.type = "payment_intent.succeeded")
    (hco : createOrder (successOrderArgs event.dataObject) = .ok ()) :
    deliverTwice (.ok event) createOrder =
      [successOrderArgs event.dataObject, successOrderArgs event.dataObject] ∧
    (deliverTwice (.ok event) createOrder).length = 2 := by
  have hb : (event.type == "payment_intent.succeeded") = true := by rw [htype]; rfl
  have hrun : (webhookHandler (.ok event) createOrder).orderCalls =
      [successOrderArgs event.dataObject] := by
    simp [webhookHandler, hb, handleSuccessfulPayment, hco]
  exact ⟨by simp [deliverTwice, hrun], by simp [deliverTwice, hrun]⟩

/-- Closed instance of C9 at the succeeded event. -/
theorem webhook_replay_no_dedup_witness :
    deliverTwice (.ok cSucceededEvent) cCreateOrderOk =
      [successOrderArgs cSucceededEvent.dataObject,
       successOrderArgs cSucceededEvent.dataObject] ∧
    (deliverTwice (.ok cSucceededEvent) cCreateOrderOk).length = 2 :=
  webhook_replay_no_dedup cSucceededEvent cCreateOrderOk rfl rfl

/-- Stripe payment-intent arguments built by the card handler. -/
def stripeIntentArgsOf (env : Env) (req : Request) : StripeIntentArgs :=
  ⟨req.body.amount, req.body.currency, req.body.paymentMethodId, true,
    env.frontendUrl ++ "/payment/confirm"⟩

/-- C7: past validation, the card route makes exactly one vendor
intent-creation call (no retry); on success it answers
`{clientSecret, paymentIntentId}` from the created intent, on a
vendor rejection a 500 carrying the vendor message and code
verbatim. -/
theorem create_payment_intent_responses (env : Env) (req : Request)
    (paymentIntentsCreate : StripeIntentArgs → Except StripeError PaymentIntent)
    (hvalid : validatePayment env req = .next) :
    (createPaymentIntentRoute env req paymentIntentsCreate).2 =
      [stripeIntentArgsOf env req] ∧
    (∀ paymentIntent,
      paymentIntentsCreate (stripeIntentArgsOf env req) = .ok paymentIntent →
      (createPaymentIntentRoute env req paymentIntentsCreate).1 =
        ⟨200, .obj [("clientSecret", .str paymentIntent.client_secret),
                    ("paymentIntentId", .str paymentIntent.id)]⟩) ∧
    (∀ e, paymentIntentsCreate (stripeIntentArgsOf env req) = .error e →
      (createPaymentIntentRoute env req paymentIntentsCreate).1 =
        stripeErrorResponse e) := by
  simp only [createPaymentIntentRoute, runValidated, hvalid]
  refine ⟨?_, ?_, ?_⟩
  · cases h : paymentIntentsCreate (stripeIntentArgsOf env req) with
    | ok paymentIntent =>
      simp only [stripeIntentArgsOf] at h
      simp [createPaymentIntentHandler, h, stripeIntentArgsOf]
    | error e =>
      simp only [stripeIntentArgsOf] at h
      simp [createPaymentIntentHandler, h, stripeIntentArgsOf]
  · intro paymentIntent h
    simp only [stripeIntentArgsOf] at h
    simp [createPaymentIntentHandler, h]
  · intro e h
    simp only [stripeIntentArgsOf] at h
    simp [createPaymentIntentHandler, h]

/-- Valid card request over a secure connection. -/
def cValidCardReq : Request :=
  { body := { method := .str "card", amount := .num 2500, currency := .str "USD",
              paymentMethodId := .str "pm_3" },
    secure := true, userId := "user_7" }

/-- Stripe intent creation stub simulating a card decline. -/
def cStripeDecline : StripeIntentArgs → Except StripeError PaymentIntent :=
  fun _ => .error ⟨"Your card was declined", .str "card_declined"⟩

/-- Closed instance of C7 at a valid request and a simulated
decline. -/
theorem create_payment_intent_responses_witness :
    (createPaymentIntentRoute cDevEnv cValidCardReq cStripeDecline).2 =
      [stripeIntentArgsOf cDevEnv cValidCardReq] ∧
    (createPaymentIntentRoute cDevEnv cValidCardReq cStripeDecline).1 =
      stripeErrorResponse ⟨"Your card was declined", .str "card_declined"⟩ := by
  have h := create_payment_intent_responses cDevEnv cValidCardReq cStripeDecline rfl
  exact ⟨h.1, h.2.2 ⟨"Your card was declined", .str "card_declined"⟩ rfl⟩

/-- PayPal create-order arguments built by the handler for a given
stringified amount. -/
def paypalCreateArgsOf (req : Request) (value : String) : PaypalCreateArgs :=
  ⟨"return=representation", "CAPTURE", [⟨req.body.currency, value⟩]⟩

/-- C8: the PayPal order handler builds one vendor create-order call
with intent CAPTURE, the representation preference, and a single
purchase unit whose value is the stringified numeric amount; on
success it answers only `{orderId}`, on a vendor exception a 500 with
the fixed message plus the detail string. -/
theorem create_paypal_order_request_shape (req : Request)
    (paypalExecuteCreate : PaypalCreateArgs → Except String PaypalOrder)
    (value : String) (hv : req.body.amount.toStringJs = .ok value) :
    (createPaypalOrderHandler req paypalExecuteCreate).2 =
      [paypalCreateArgsOf req value] ∧
    (∀ order, paypalExecuteCreate (paypalCreateArgsOf req value) = .ok order →
      (createPaypalOrderHandler req paypalExecuteCreate).1 =
        ⟨200, .obj [("orderId", .str order.id)]⟩) ∧
    (∀ e, paypalExecuteCreate (paypalCreateArgsOf req value) = .error e →
      (createPaypalOrderHandler req paypalExecuteCreate).1 =
        detailErrorResponse "Failed to create PayPal order" e) := by
  refine ⟨?_, ?_, ?_⟩
  · cases h : paypalExecuteCreate (paypalCreateArgsOf req value) with
    | ok order =>
      simp only [paypalCreateArgsOf] at h
      simp [createPaypalOrderHandler, hv, h, paypalCreateArgsOf]
    | error e =>
      simp only [paypalCreateArgsOf] at h
      simp [createPaypalOrderHandler, hv, h, paypalCreateArgsOf]
  · intro order h
    simp only [paypalCreateArgsOf] at h
    simp [createPaypalOrderHandler, hv, h]
  · intro e h
    simp only [paypalCreateArgsOf] at h
    simp [createPaypalOrderHandler, hv, h]

/-- Valid PayPal request over a secure connection. -/
def cValidPaypalReq : Request :=
  { body := { method := .str "paypal", amount := .num 1999, currency := .str "USD" },
    secure := true, userId := "user_8" }

/-- Closed instance of C8 at amount 1999 and a succeeding vendor. -/
theorem create_paypal_order_request_shape_witness :
    (createPaypalOrderHandler cValidPaypalReq cPaypalCreateOk).2 =
      [paypalCreateArgsOf cValidPaypalReq "1999"] ∧
    (createPaypalOrderHandler cValidPaypalReq cPaypalCreateOk).1 =
      ⟨200, .obj [("orderId", .str "PAY-9")]⟩ := by
  have h := create_paypal_order_request_shape cValidPaypalReq cPaypalCreateOk "1999" rfl
  exact ⟨h.1, h.2.1 ⟨"PAY-9"⟩ rfl⟩
